import Mathlib

/-
  Shallow embedding of `include/seastar/core/internal/io_request.hh`
  (class `seastar::internal::io_request`).

  The C++ class stores an operation tag, a file descriptor, and three
  unions:
    _attr : union { uint64_t pos; int flags; int events; }
    _ptr  : union { char* addr; ::iovec* iovec; ::msghdr* msghdr; ::sockaddr* sockaddr; }
    _size : union { size_t len; socklen_t* socklen_ptr; socklen_t socklen; }

  Each union is modelled by an inductive recording which member was last
  written (or that none was).  Reads are modelled per union member:
  - all members of `_ptr` are 64-bit pointers with identical object
    representation, so reading any member returns the stored address;
  - in `_attr`, `pos` is 64 bits while `flags`/`events` are 32-bit ints:
    reading `pos` after a 32-bit write is indeterminate (`none`), while
    reading `flags`/`events` after a `pos` write reinterprets the low 32
    bits as a two's-complement signed int (the type punning the code
    itself relies on in `make_recv`/`make_send`);
  - in `_size`, `len` and `socklen_ptr` are 64 bits and `socklen` is an
    unsigned 32-bit value, treated analogously.
  Pointers are modelled by their 64-bit addresses as `Nat`; C ints by
  `Int`; `uint64_t`/`size_t` by `Nat` values below 2^64.
-/

/-- The fourteen operation tags of `io_request::operation`. -/
inductive operation
  | read | readv | write | writev | fdatasync | recv | recvmsg
  | send | sendmsg | accept | connect | poll_add | poll_remove | cancel
deriving DecidableEq

/-- C++ implicit conversion from `int` to `uint64_t`: reduction modulo 2^64
(sign extension for negative values). -/
def toUInt64 (i : Int) : Nat :=
  (i % (2 ^ 64 : Int)).toNat

/-- Reinterpret the low 32 bits of a natural number as a two's-complement
signed 32-bit `int` (the value obtained by reading the `int` member of a
union whose storage holds these bits). -/
def toInt32 (n : Nat) : Int :=
  if n % 2 ^ 32 < 2 ^ 31 then (n % 2 ^ 32 : Nat) else (n % 2 ^ 32 : Nat) - 2 ^ 32

/-- Storage state of the `_attr` union
`union { uint64_t pos; int flags; int events; }`.
`pos v` records a full 64-bit write through the `uint64_t` member;
`word v` records a 32-bit write through one of the `int` members
(`flags` and `events` have identical size and representation, so one
constructor covers both); `uninit` records that no constructor wrote
the union. -/
inductive AttrStore
  | uninit
  | pos (v : Nat)
  | word (v : Int)
deriving DecidableEq

/-- Storage state of the `_ptr` union
`union { char* addr; ::iovec* iovec; ::msghdr* msghdr; ::sockaddr* sockaddr; }`,
recording which pointer member was written and the 64-bit address stored. -/
inductive PtrStore
  | uninit
  | addr (p : Nat)
  | iovec (p : Nat)
  | msghdr (p : Nat)
  | sockaddr (p : Nat)
deriving DecidableEq

/-- Storage state of the `_size` union
`union { size_t len; socklen_t* socklen_ptr; socklen_t socklen; }`.
`len` and `socklenPtr` are full 64-bit writes; `socklen` is a 32-bit
unsigned write leaving the upper bytes indeterminate. -/
inductive SizeStore
  | uninit
  | len (v : Nat)
  | socklenPtr (p : Nat)
  | socklen (v : Nat)
deriving DecidableEq

/-- The `io_request` value: tag, descriptor, and the three unions. -/
structure io_request where
  _op : operation
  _fd : Int
  _attr : AttrStore
  _ptr : PtrStore
  _size : SizeStore
deriving DecidableEq

/-- Private constructor `io_request(operation, int fd, int flags, ::msghdr* msg)`:
sets `_attr.flags` and `_ptr.msghdr`; `_size` is left uninitialized. -/
def mk_flags_msghdr (op : operation) (fd : Int) (flags : Int) (msg : Nat) : io_request :=
  { _op := op, _fd := fd, _attr := .word flags, _ptr := .msghdr msg, _size := .uninit }

/-- Private constructor `io_request(operation, int fd, sockaddr* sa, socklen_t sl)`:
sets `_ptr.sockaddr` and `_size.socklen`; `_attr` is left uninitialized. -/
def mk_sockaddr_socklen (op : operation) (fd : Int) (sa : Nat) (sl : Nat) : io_request :=
  { _op := op, _fd := fd, _attr := .uninit, _ptr := .sockaddr sa, _size := .socklen sl }

/-- Private constructor
`io_request(operation, int fd, int flags, sockaddr* sa, socklen_t* sl)`:
sets `_attr.flags`, `_ptr.sockaddr` and `_size.socklen_ptr`. -/
def mk_flags_sockaddr_socklenptr (op : operation) (fd : Int) (flags : Int) (sa : Nat) (sl : Nat) : io_request :=
  { _op := op, _fd := fd, _attr := .word flags, _ptr := .sockaddr sa, _size := .socklenPtr sl }

/-- Private constructor
`io_request(operation, int fd, uint64_t pos, char* ptr, size_t size)`:
sets `_attr.pos`, `_ptr.addr` and `_size.len`. -/
def mk_pos_addr_size (op : operation) (fd : Int) (pos : Nat) (ptr : Nat) (size : Nat) : io_request :=
  { _op := op, _fd := fd, _attr := .pos pos, _ptr := .addr ptr, _size := .len size }

/-- Private constructor
`io_request(operation, int fd, uint64_t pos, iovec* ptr, size_t size)`:
sets `_attr.pos`, `_ptr.iovec` and `_size.len`. -/
def mk_pos_iovec_size (op : operation) (fd : Int) (pos : Nat) (ptr : Nat) (size : Nat) : io_request :=
  { _op := op, _fd := fd, _attr := .pos pos, _ptr := .iovec ptr, _size := .len size }

/-- Private constructor `io_request(operation, int fd)`: all three unions are
left uninitialized. -/
def mk_fd_only (op : operation) (fd : Int) : io_request :=
  { _op := op, _fd := fd, _attr := .uninit, _ptr := .uninit, _size := .uninit }

/-- Private constructor `io_request(operation, int fd, int events)`:
sets `_attr.events`; `_ptr` and `_size` are left uninitialized. -/
def mk_events (op : operation) (fd : Int) (events : Int) : io_request :=
  { _op := op, _fd := fd, _attr := .word events, _ptr := .uninit, _size := .uninit }

/-- Private constructor `io_request(operation, int fd, char* ptr)`:
sets `_ptr.addr`; `_attr` and `_size` are left uninitialized. -/
def mk_addr_only (op : operation) (fd : Int) (ptr : Nat) : io_request :=
  { _op := op, _fd := fd, _attr := .uninit, _ptr := .addr ptr, _size := .uninit }

/-- `io_request::is_read()`. -/
def io_request.is_read (r : io_request) : Bool :=
  match r._op with
  | .read | .readv | .recvmsg | .recv => true
  | _ => false

/-- `io_request::is_write()`. -/
def io_request.is_write (r : io_request) : Bool :=
  match r._op with
  | .write | .writev | .send | .sendmsg => true
  | _ => false

/-- `io_request::opcode()`. -/
def io_request.opcode (r : io_request) : operation :=
  r._op

/-- `io_request::fd()`. -/
def io_request.fd (r : io_request) : Int :=
  r._fd

/-- `io_request::pos()`: reads the 64-bit `uint64_t` member of `_attr`.
After a 32-bit `int` write the upper bytes are indeterminate, so the
read is undetermined (`none`); likewise when nothing was written. -/
def io_request.pos (r : io_request) : Option Nat :=
  match r._attr with
  | .pos v => some v
  | .word _ => none
  | .uninit => none

/-- `io_request::flags()`: reads the `int flags` member of `_attr`.
After a 64-bit `pos` write, the low 32 bits are reinterpreted as a
signed int (defined type punning the code relies on). -/
def io_request.flags (r : io_request) : Option Int :=
  match r._attr with
  | .pos v => some (toInt32 v)
  | .word v => some v
  | .uninit => none

/-- `io_request::events()`: reads the `int events` member of `_attr`,
physically identical to the `flags` member. -/
def io_request.events (r : io_request) : Option Int :=
  match r._attr with
  | .pos v => some (toInt32 v)
  | .word v => some v
  | .uninit => none

/-- `io_request::address()`: reads the `char* addr` member of `_ptr` and
casts it to `void*`; all four pointer members share one representation,
so the stored address is returned whichever member was written. -/
def io_request.address (r : io_request) : Option Nat :=
  match r._ptr with
  | .uninit => none
  | .addr p => some p
  | .iovec p => some p
  | .msghdr p => some p
  | .sockaddr p => some p

/-- `io_request::iov()`: reads the `::iovec*` member of `_ptr`. -/
def io_request.iov (r : io_request) : Option Nat :=
  match r._ptr with
  | .uninit => none
  | .addr p => some p
  | .iovec p => some p
  | .msghdr p => some p
  | .sockaddr p => some p

/-- `io_request::posix_sockaddr()`: reads the `::sockaddr*` member of `_ptr`. -/
def io_request.posix_sockaddr (r : io_request) : Option Nat :=
  match r._ptr with
  | .uninit => none
  | .addr p => some p
  | .iovec p => some p
  | .msghdr p => some p
  | .sockaddr p => some p

/-- `io_request::msghdr()`: reads the `::msghdr*` member of `_ptr`. -/
def io_request.msghdr (r : io_request) : Option Nat :=
  match r._ptr with
  | .uninit => none
  | .addr p => some p
  | .iovec p => some p
  | .msghdr p => some p
  | .sockaddr p => some p

/-- `io_request::size()`: reads the 64-bit `size_t len` member of `_size`.
After a 32-bit `socklen` write the upper bytes are indeterminate. -/
def io_request.size (r : io_request) : Option Nat :=
  match r._size with
  | .len v => some v
  | .socklenPtr p => some p
  | .socklen _ => none
  | .uninit => none

/-- `io_request::iov_len()`: reads the same `size_t len` member of `_size`
as `size()`. -/
def io_request.iov_len (r : io_request) : Option Nat :=
  match r._size with
  | .len v => some v
  | .socklenPtr p => some p
  | .socklen _ => none
  | .uninit => none

/-- `io_request::socklen()`: reads the 32-bit `socklen_t` member of `_size`
(low 32 bits of the storage). -/
def io_request.socklen (r : io_request) : Option Nat :=
  match r._size with
  | .len v => some (v % 2 ^ 32)
  | .socklenPtr p => some (p % 2 ^ 32)
  | .socklen v => some v
  | .uninit => none

/-- `io_request::socklen_ptr()`: reads the 64-bit `socklen_t*` member of
`_size`.  After a 32-bit `socklen` value write the upper bytes are
indeterminate. -/
def io_request.socklen_ptr (r : io_request) : Option Nat :=
  match r._size with
  | .len v => some v
  | .socklenPtr p => some p
  | .socklen _ => none
  | .uninit => none

/-- A `std::vector<iovec>` as the factories use it: `data()` (address of
the first element) and `size()` (element count). -/
structure iovec_vector where
  data : Nat
  size : Nat
deriving DecidableEq

/-- `io_request::make_read`. -/
def make_read (fd : Int) (pos : Nat) (address : Nat) (size : Nat) : io_request :=
  mk_pos_addr_size .read fd pos address size

/-- `io_request::make_readv`. -/
def make_readv (fd : Int) (pos : Nat) (iov : iovec_vector) : io_request :=
  mk_pos_iovec_size .readv fd pos iov.data iov.size

/-- `io_request::make_recv`: the `int flags` argument is passed where the
chosen constructor expects `uint64_t pos`, so it is implicitly converted
to `uint64_t` (sign extension modulo 2^64). -/
def make_recv (fd : Int) (address : Nat) (size : Nat) (flags : Int) : io_request :=
  mk_pos_addr_size .recv fd (toUInt64 flags) address size

/-- `io_request::make_recvmsg`. -/
def make_recvmsg (fd : Int) (msg : Nat) (flags : Int) : io_request :=
  mk_flags_msghdr .recvmsg fd flags msg

/-- `io_request::make_send`: like `make_recv`, the `int flags` argument is
converted to `uint64_t` and stored through the `pos` member. -/
def make_send (fd : Int) (address : Nat) (size : Nat) (flags : Int) : io_request :=
  mk_pos_addr_size .send fd (toUInt64 flags) address size

/-- `io_request::make_sendmsg`. -/
def make_sendmsg (fd : Int) (msg : Nat) (flags : Int) : io_request :=
  mk_flags_msghdr .sendmsg fd flags msg

/-- `io_request::make_write`. -/
def make_write (fd : Int) (pos : Nat) (address : Nat) (size : Nat) : io_request :=
  mk_pos_addr_size .write fd pos address size

/-- `io_request::make_writev`. -/
def make_writev (fd : Int) (pos : Nat) (iov : iovec_vector) : io_request :=
  mk_pos_iovec_size .writev fd pos iov.data iov.size

/-- `io_request::make_fdatasync`. -/
def make_fdatasync (fd : Int) : io_request :=
  mk_fd_only .fdatasync fd

/-- `io_request::make_accept`. -/
def make_accept (fd : Int) (addr : Nat) (addrlen : Nat) (flags : Int) : io_request :=
  mk_flags_sockaddr_socklenptr .accept fd flags addr addrlen

/-- `io_request::make_connect`. -/
def make_connect (fd : Int) (addr : Nat) (addrlen : Nat) : io_request :=
  mk_sockaddr_socklen .connect fd addr addrlen

/-- `io_request::make_poll_add`. -/
def make_poll_add (fd : Int) (events : Int) : io_request :=
  mk_events .poll_add fd events

/-- `io_request::make_poll_remove`. -/
def make_poll_remove (fd : Int) (addr : Nat) : io_request :=
  mk_addr_only .poll_remove fd addr

/-- `io_request::make_cancel`. -/
def make_cancel (fd : Int) (addr : Nat) : io_request :=
  mk_addr_only .cancel fd addr

/-- Storing a C `int` through a `uint64_t` union member and reading it back
through an `int` member recovers the value: sign extension to 64 bits
followed by reinterpretation of the low 32 bits is the identity on the
`int` range. -/
theorem flags_roundtrip (i : Int) (h1 : -(2 ^ 31) ≤ i) (h2 : i < 2 ^ 31) :
    toInt32 (toUInt64 i) = i := by
  unfold toUInt64 toInt32
  norm_num
  omega

/-- Claim C1: for every `io_request` value, `is_read()` returns true iff the
operation tag is one of read, readv, recv, recvmsg, and `is_write()` returns
true iff the tag is one of write, writev, send, sendmsg. -/
theorem C1_read_write_classification (r : io_request) :
    (r.is_read = true ↔
      (r._op = .read ∨ r._op = .readv ∨ r._op = .recv ∨ r._op = .recvmsg)) ∧
    (r.is_write = true ↔
      (r._op = .write ∨ r._op = .writev ∨ r._op = .send ∨ r._op = .sendmsg)) := by
  obtain ⟨op, fd, attr, ptr, sz⟩ := r
  cases op <;> simp [io_request.is_read, io_request.is_write]

/-- Claim C2: every value supplied to a factory is returned exactly by the
corresponding accessor: positions by `pos()`, flags by `flags()`, the event
mask by `events()`, byte lengths and vector element counts by
`size()`/`iov_len()`, and every pointer by its matching pointer accessor. -/
theorem C2_factory_roundtrip (fd : Int) (pos address size msg sa slp addrlen token : Nat)
    (iov : iovec_vector) (flags events : Int)
    (h1 : -(2 ^ 31) ≤ flags) (h2 : flags < 2 ^ 31) :
    (make_read fd pos address size).pos = some pos ∧
    (make_readv fd pos iov).pos = some pos ∧
    (make_write fd pos address size).pos = some pos ∧
    (make_writev fd pos iov).pos = some pos ∧
    (make_recv fd address size flags).flags = some flags ∧
    (make_recvmsg fd msg flags).flags = some flags ∧
    (make_send fd address size flags).flags = some flags ∧
    (make_sendmsg fd msg flags).flags = some flags ∧
    (make_accept fd sa slp flags).flags = some flags ∧
    (make_poll_add fd events).events = some events ∧
    (make_read fd pos address size).size = some size ∧
    (make_write fd pos address size).size = some size ∧
    (make_recv fd address size flags).size = some size ∧
    (make_send fd address size flags).size = some size ∧
    (make_readv fd pos iov).iov_len = some iov.size ∧
    (make_writev fd pos iov).iov_len = some iov.size ∧
    (make_read fd pos address size).address = some address ∧
    (make_write fd pos address size).address = some address ∧
    (make_recv fd address size flags).address = some address ∧
    (make_send fd address size flags).address = some address ∧
    (make_readv fd pos iov).iov = some iov.data ∧
    (make_writev fd pos iov).iov = some iov.data ∧
    (make_recvmsg fd msg flags).msghdr = some msg ∧
    (make_sendmsg fd msg flags).msghdr = some msg ∧
    (make_accept fd sa slp flags).posix_sockaddr = some sa ∧
    (make_connect fd sa addrlen).posix_sockaddr = some sa ∧
    (make_accept fd sa slp flags).socklen_ptr = some slp ∧
    (make_poll_remove fd token).address = some token ∧
    (make_cancel fd token).address = some token := by
  have hr : (make_recv fd address size flags).flags = some flags := by
    show some (toInt32 (toUInt64 flags)) = some flags
    rw [flags_roundtrip flags h1 h2]
  have hs : (make_send fd address size flags).flags = some flags := by
    show some (toInt32 (toUInt64 flags)) = some flags
    rw [flags_roundtrip flags h1 h2]
  exact ⟨rfl, rfl, rfl, rfl, hr, rfl, hs, rfl, rfl, rfl, rfl, rfl, rfl, rfl, rfl,
    rfl, rfl, rfl, rfl, rfl, rfl, rfl, rfl, rfl, rfl, rfl, rfl, rfl, rfl⟩

/-- Witness for C2 at concrete inputs: fd = 1, pos = 4096, address = 3,
size = 4, msg = 8, sa = 9, slp = 10, addrlen = 13, token = 11,
iov = (data 5, size 6), flags = -7, events = 12. -/
theorem C2_factory_roundtrip_witness :
    (-(2 ^ 31 : Int) ≤ -7) ∧ ((-7 : Int) < 2 ^ 31) ∧
    ((make_read 1 4096 3 4).pos = some 4096 ∧
    (make_readv 1 4096 ⟨5, 6⟩).pos = some 4096 ∧
    (make_write 1 4096 3 4).pos = some 4096 ∧
    (make_writev 1 4096 ⟨5, 6⟩).pos = some 4096 ∧
    (make_recv 1 3 4 (-7)).flags = some (-7) ∧
    (make_recvmsg 1 8 (-7)).flags = some (-7) ∧
    (make_send 1 3 4 (-7)).flags = some (-7) ∧
    (make_sendmsg 1 8 (-7)).flags = some (-7) ∧
    (make_accept 1 9 10 (-7)).flags = some (-7) ∧
    (make_poll_add 1 12).events = some 12 ∧
    (make_read 1 4096 3 4).size = some 4 ∧
    (make_write 1 4096 3 4).size = some 4 ∧
    (make_recv 1 3 4 (-7)).size = some 4 ∧
    (make_send 1 3 4 (-7)).size = some 4 ∧
    (make_readv 1 4096 ⟨5, 6⟩).iov_len = some 6 ∧
    (make_writev 1 4096 ⟨5, 6⟩).iov_len = some 6 ∧
    (make_read 1 4096 3 4).address = some 3 ∧
    (make_write 1 4096 3 4).address = some 3 ∧
    (make_recv 1 3 4 (-7)).address = some 3 ∧
    (make_send 1 3 4 (-7)).address = some 3 ∧
    (make_readv 1 4096 ⟨5, 6⟩).iov = some 5 ∧
    (make_writev 1 4096 ⟨5, 6⟩).iov = some 5 ∧
    (make_recvmsg 1 8 (-7)).msghdr = some 8 ∧
    (make_sendmsg 1 8 (-7)).msghdr = some 8 ∧
    (make_accept 1 9 10 (-7)).posix_sockaddr = some 9 ∧
    (make_connect 1 9 13).posix_sockaddr = some 9 ∧
    (make_accept 1 9 10 (-7)).socklen_ptr = some 10 ∧
    (make_poll_remove 1 11).address = some 11 ∧
    (make_cancel 1 11).address = some 11) :=
  ⟨by decide, by decide,
    C2_factory_roundtrip 1 4096 3 4 8 9 10 13 11 ⟨5, 6⟩ (-7) 12 (by decide) (by decide)⟩

/-- Claim C3: `make_accept(fd, addr, addrlen, flags)` returns via
`socklen_ptr()` the very pointer supplied, while `make_connect(fd, addr,
addrlen)` returns via `socklen()` the value supplied; a `socklen_ptr()` read
on a connect request sees indeterminate storage (only 32 bits were written),
so the asymmetry is exact. -/
theorem C3_socklen_asymmetry (fd : Int) (addr addrlen_ptr addrlen : Nat) (flags : Int) :
    (make_accept fd addr addrlen_ptr flags).socklen_ptr = some addrlen_ptr ∧
    (make_connect fd addr addrlen).socklen = some addrlen ∧
    (make_connect fd addr addrlen).socklen_ptr = none :=
  ⟨rfl, rfl, rfl⟩

/-- Claim C4: `make_poll_remove(fd, token)` and `make_cancel(fd, token)`
store the token through the `char* addr` union member — the same physical
slot a buffer pointer occupies (compare `make_read`) — and the token is
retrievable via `address()`. -/
theorem C4_token_in_buffer_slot (fd : Int) (token buf : Nat) :
    (make_poll_remove fd token)._ptr = PtrStore.addr token ∧
    (make_cancel fd token)._ptr = PtrStore.addr token ∧
    (make_read fd 0 buf 0)._ptr = PtrStore.addr buf ∧
    (make_poll_remove fd token).address = some token ∧
    (make_cancel fd token).address = some token :=
  ⟨rfl, rfl, rfl, rfl, rfl⟩

/-- Claim C5: `is_read()` and `is_write()` are never both true, and both are
false exactly for the six operations fdatasync, accept, connect, poll_add,
poll_remove, cancel. -/
theorem C5_mutual_exclusion (r : io_request) :
    ¬(r.is_read = true ∧ r.is_write = true) ∧
    ((r.is_read = false ∧ r.is_write = false) ↔
      (r._op = .fdatasync ∨ r._op = .accept ∨ r._op = .connect ∨
       r._op = .poll_add ∨ r._op = .poll_remove ∨ r._op = .cancel)) := by
  obtain ⟨op, fd, attr, ptr, sz⟩ := r
  cases op <;> simp [io_request.is_read, io_request.is_write]

/-- Claim C6: the request `make_write(fd = 7, pos = 4096, address = buf,
size = 512)` satisfies `opcode() == write`, `fd() == 7`, `pos() == 4096`,
`address() == buf`, `size() == 512`, `is_write()` and not `is_read()`. -/
theorem C6_make_write_scenario (buf : Nat) :
    (make_write 7 4096 buf 512).opcode = operation.write ∧
    (make_write 7 4096 buf 512).fd = 7 ∧
    (make_write 7 4096 buf 512).pos = some 4096 ∧
    (make_write 7 4096 buf 512).address = some buf ∧
    (make_write 7 4096 buf 512).size = some 512 ∧
    (make_write 7 4096 buf 512).is_write = true ∧
    (make_write 7 4096 buf 512).is_read = false :=
  ⟨rfl, rfl, rfl, rfl, rfl, rfl, rfl⟩

/-- Counterexample to Claim C7 as stated: `make_fdatasync` never writes the
`_attr` union, so the attribute storage is left unwritten (indeterminate),
not zero; in particular `pos()`, `flags()` and `events()` do not return 0. -/
theorem C7_counterexample :
    (make_fdatasync 1)._attr = AttrStore.uninit ∧
    ¬((make_fdatasync 1).pos = some 0) ∧
    ¬((make_fdatasync 1).flags = some 0) ∧
    ¬((make_fdatasync 1).events = some 0) := by
  decide

/-- Claim C7 (amended): the factories `make_fdatasync`, `make_connect`,
`make_poll_remove` and `make_cancel` leave the attribute union unwritten
(no position, flags or events value is stored), so `pos()`, `flags()` and
`events()` read indeterminate storage on such requests — not zero. -/
theorem C7_attr_left_unset (fd : Int) (sa addrlen token : Nat) :
    (make_fdatasync fd)._attr = AttrStore.uninit ∧
    (make_connect fd sa addrlen)._attr = AttrStore.uninit ∧
    (make_poll_remove fd token)._attr = AttrStore.uninit ∧
    (make_cancel fd token)._attr = AttrStore.uninit ∧
    (make_fdatasync fd).pos = none ∧
    (make_fdatasync fd).flags = none ∧
    (make_fdatasync fd).events = none ∧
    (make_connect fd sa addrlen).pos = none ∧
    (make_connect fd sa addrlen).flags = none ∧
    (make_connect fd sa addrlen).events = none ∧
    (make_poll_remove fd token).pos = none ∧
    (make_poll_remove fd token).flags = none ∧
    (make_poll_remove fd token).events = none ∧
    (make_cancel fd token).pos = none ∧
    (make_cancel fd token).flags = none ∧
    (make_cancel fd token).events = none :=
  ⟨rfl, rfl, rfl, rfl, rfl, rfl, rfl, rfl, rfl, rfl, rfl, rfl, rfl, rfl, rfl, rfl⟩

/-- Claim C8: `make_recv` and `make_send` store the `int flags` argument
through the 64-bit `pos` member of the attribute union, converted from
`int` to `uint64_t` (sign extension modulo 2^64); `pos()` returns that
converted value and `flags()` recovers the original flags. -/
theorem C8_recv_send_flags_via_pos (fd : Int) (address size : Nat) (flags : Int)
    (h1 : -(2 ^ 31) ≤ flags) (h2 : flags < 2 ^ 31) :
    (make_recv fd address size flags)._attr = AttrStore.pos (toUInt64 flags) ∧
    (make_send fd address size flags)._attr = AttrStore.pos (toUInt64 flags) ∧
    toUInt64 flags = (flags % (2 ^ 64 : Int)).toNat ∧
    (make_recv fd address size flags).pos = some (toUInt64 flags) ∧
    (make_send fd address size flags).pos = some (toUInt64 flags) ∧
    (make_recv fd address size flags).flags = some flags ∧
    (make_send fd address size flags).flags = some flags := by
  have hr : (make_recv fd address size flags).flags = some flags := by
    show some (toInt32 (toUInt64 flags)) = some flags
    rw [flags_roundtrip flags h1 h2]
  have hs : (make_send fd address size flags).flags = some flags := by
    show some (toInt32 (toUInt64 flags)) = some flags
    rw [flags_roundtrip flags h1 h2]
  exact ⟨rfl, rfl, rfl, rfl, rfl, hr, hs⟩

/-- Witness for C8 at fd = 1, address = 2, size = 3, flags = -7. -/
theorem C8_recv_send_flags_via_pos_witness :
    (-(2 ^ 31 : Int) ≤ -7) ∧ ((-7 : Int) < 2 ^ 31) ∧
    ((make_recv 1 2 3 (-7))._attr = AttrStore.pos (toUInt64 (-7)) ∧
    (make_send 1 2 3 (-7))._attr = AttrStore.pos (toUInt64 (-7)) ∧
    toUInt64 (-7) = ((-7 : Int) % (2 ^ 64 : Int)).toNat ∧
    (make_recv 1 2 3 (-7)).pos = some (toUInt64 (-7)) ∧
    (make_send 1 2 3 (-7)).pos = some (toUInt64 (-7)) ∧
    (make_recv 1 2 3 (-7)).flags = some (-7) ∧
    (make_send 1 2 3 (-7)).flags = some (-7)) :=
  ⟨by decide, by decide,
    C8_recv_send_flags_via_pos 1 2 3 (-7) (by decide) (by decide)⟩

/-- Claim C9: all four pointer accessors project the single `_ptr` slot —
`address()`, `iov()`, `msghdr()` and `posix_sockaddr()` agree on every
request — and after `make_recvmsg(fd, msg, flags)`, `address()` returns
`msg`. -/
theorem C9_pointer_accessors_agree (r : io_request) (fd : Int) (msg : Nat) (flags : Int) :
    (r.address = r.iov ∧ r.iov = r.msghdr ∧ r.msghdr = r.posix_sockaddr) ∧
    (make_recvmsg fd msg flags).address = some msg := by
  refine ⟨?_, rfl⟩
  obtain ⟨op, fd', attr, ptr, sz⟩ := r
  cases ptr <;> exact ⟨rfl, rfl, rfl⟩

/-- Claim C10: `size()` and `iov_len()` are identical projections of the
same `len` storage member: they agree on every request. -/
theorem C10_size_iov_len_agree (r : io_request) : r.size = r.iov_len := by
  obtain ⟨op, fd, attr, ptr, sz⟩ := r
  cases sz <;> rfl
